import Mathlib

/-!
Verification of the structural-data validation and normalization engine
(`isValid` / `getValidValueOrDefault`) of this repository.

The engine itself (`ext/js/data/json-schema.js`) is not among the staged
source files; only its reference test matrix (`src/test/test-schema.js`) is.
The definitions below are therefore modelled from the specification
(spec.md §3, §4.1–§4.3, §7), with every point the specification leaves
open pinned to the behaviour the reference test matrix demands.
-/

namespace JsonSchema

/-- Modelled from the spec: a value is a JSON-like tree — `null`, boolean,
number, string, ordered list or string-keyed map — plus the out-of-grammar
`undefined` marker used for absent data.  Numbers are modelled as exact
rationals (every number in the reference test matrix is exactly
representable).  Composite values (`arr`, `obj`) carry a `Nat` instance
identifier realising the spec's "same logical instance" identity for
`const`/`enum`.  A map carries its own entries and, separately, the entries
it would resolve through the prototype/inheritance chain; the engine only
ever consults the own entries. -/
inductive Value where
  | undef : Value
  | null : Value
  | boolean : Bool → Value
  | number : Rat → Value
  | str : String → Value
  | arr : Nat → List Value → Value
  | obj : Nat → List (String × Value) → List (String × Value) → Value

/-- Modelled from the spec: the basic kinds `classify` can assign. -/
inductive Kind where
  | null : Kind
  | boolean : Kind
  | number : Kind
  | integer : Kind
  | string : Kind
  | array : Kind
  | object : Kind
deriving DecidableEq

/-- Modelled from the spec: the admissible values of a schema node's `type`
field. -/
inductive SchemaType where
  | null : SchemaType
  | boolean : SchemaType
  | number : SchemaType
  | integer : SchemaType
  | string : SchemaType
  | array : SchemaType
  | object : SchemaType
deriving DecidableEq

/-- Modelled from the spec (§4.1): `classify` maps a value to exactly one
kind; a number is `integer` iff it has zero fractional part (a rational is
always finite); booleans are never numbers.  The `undefined` marker is
outside the value grammar and gets no kind. -/
def classify : Value → Option Kind
  | .undef => none
  | .null => some .null
  | .boolean _ => some .boolean
  | .number q => some (if q.den == 1 then .integer else .number)
  | .str _ => some .string
  | .arr _ _ => some .array
  | .obj _ _ _ => some .object

/-- Modelled from the spec (§4.1, §3): identity equality — true only for
primitives of matching kind and equal value, or for the exact same
composite instance (same instance identifier). -/
def identityEquals : Value → Value → Bool
  | .undef, .undef => true
  | .null, .null => true
  | .boolean a, .boolean b => a == b
  | .number a, .number b => a.num == b.num && a.den == b.den
  | .str a, .str b => a == b
  | .arr i _, .arr j _ => i == j
  | .obj i _ _, .obj j _ _ => i == j
  | _, _ => false

/-- Modelled from the spec (§4.2 step 1): the type gate, with `integer`
satisfying a `number`-typed gate but not vice versa. -/
def kindMatches : SchemaType → Kind → Bool
  | .null, .null => true
  | .boolean, .boolean => true
  | .number, .number => true
  | .number, .integer => true
  | .integer, .integer => true
  | .string, .string => true
  | .array, .array => true
  | .object, .object => true
  | _, _ => false

/-- Rational comparison `a ≤ b` by cross-multiplication (denominators are
positive), kept free of typeclass arithmetic so that it evaluates in the
kernel. -/
def ratLeB (a b : Rat) : Bool := decide (a.num * (b.den : Int) ≤ b.num * (a.den : Int))

/-- Rational comparison `a < b` by cross-multiplication. -/
def ratLtB (a b : Rat) : Bool := decide (a.num * (b.den : Int) < b.num * (a.den : Int))

/-- Modelled from the spec (§4.1): `multipleOf` checks `value % divisor == 0`
under the number semantics of the reference test matrix (`-2 % 2 == 0`,
`0 % d == 0` for nonzero `d`), and is not satisfied for a zero divisor.
For exact rationals, `x % d == 0` holds iff `x / d` is an integer, i.e. iff
`(x.num * d.den) % (d.num * x.den) = 0`. -/
def multipleOfCheck (x d : Rat) : Bool :=
  d.num != 0 && (x.num * (d.den : Int)) % (d.num * (x.den : Int)) == 0

/-- Modelled from the spec (§5, §7): regular expressions are an opaque
primitive whose compilation may fail; this development carries a small
concrete subset.  A flag string is well-formed when every character is one
of the host's regular-expression flags. -/
def validFlags (flags : String) : Bool :=
  flags.toList.all (fun c => "dgimsuy".toList.contains c)

/-- Helper for `validPattern`: a quantifier (`*`, `+`, `?`) must follow an
atom; the boolean tracks whether the previous character supplied one. -/
def validPatternAux : List Char → Bool → Bool
  | [], _ => true
  | c :: rest, hasAtom =>
    if c = '*' || c = '+' || c = '?' then hasAtom && validPatternAux rest false
    else validPatternAux rest true

/-- Modelled from the spec (§3, §7): a pattern source is well-formed when no
quantifier appears without a preceding atom (so the source `*` is
malformed, while `test`, `^test$` and `.` are well-formed). -/
def validPattern (source : String) : Bool := validPatternAux source.toList false

/-- A compiled pattern: compilation has checked the source and flags. -/
structure CompiledPattern where
  source : String
  flags : String

/-- Modelled from the spec (§3, §7): compiling a pattern fails — yielding
`none`, never an error — when the source or the flag string is malformed. -/
def compilePattern (source flags : String) : Option CompiledPattern :=
  if validPattern source && validFlags flags then some ⟨source, flags⟩ else none

/-- An atom of the modelled pattern subset: `.` or a literal character. -/
inductive RAtom where
  | dot : RAtom
  | lit : Char → RAtom

/-- A piece of the modelled pattern subset: an atom, possibly quantified. -/
inductive RPiece where
  | once : RAtom → RPiece
  | star : RAtom → RPiece
  | plus : RAtom → RPiece
  | opt : RAtom → RPiece

/-- Character versus atom, honouring the case-insensitive flag. -/
def atomMatch (ci : Bool) : RAtom → Char → Bool
  | .dot, _ => true
  | .lit c, x => if ci then c.toLower == x.toLower else c == x

/-- The atom a single source character denotes. -/
def toAtom (c : Char) : RAtom := if c = '.' then .dot else .lit c

/-- Pieces of a (well-formed, anchor-stripped) pattern source. -/
def parsePieces : List Char → List RPiece
  | [] => []
  | [c] => [.once (toAtom c)]
  | c :: q :: rest =>
    if q = '*' then .star (toAtom c) :: parsePieces rest
    else if q = '+' then .plus (toAtom c) :: parsePieces rest
    else if q = '?' then .opt (toAtom c) :: parsePieces rest
    else .once (toAtom c) :: parsePieces (q :: rest)

/-- Backtracking matcher for the pattern subset.  The fuel only bounds the
recursion; every step shrinks pieces-plus-characters, so
`pieces.length + chars.length + 1` fuel is always enough. -/
def canMatch (ci : Bool) : Nat → Bool → List RPiece → List Char → Bool
  | 0, _, _, _ => false
  | _+1, mustEnd, [], cs => !mustEnd || cs.isEmpty
  | f+1, mustEnd, p :: ps, cs =>
    match p with
    | .once a =>
      match cs with
      | [] => false
      | c :: rest => atomMatch ci a c && canMatch ci f mustEnd ps rest
    | .opt a =>
      canMatch ci f mustEnd ps cs ||
        (match cs with
         | [] => false
         | c :: rest => atomMatch ci a c && canMatch ci f mustEnd ps rest)
    | .star a =>
      canMatch ci f mustEnd ps cs ||
        (match cs with
         | [] => false
         | c :: rest => atomMatch ci a c && canMatch ci f mustEnd (RPiece.star a :: ps) rest)
    | .plus a =>
      match cs with
      | [] => false
      | c :: rest => atomMatch ci a c && canMatch ci f mustEnd (RPiece.star a :: ps) rest

/-- Whether a compiled pattern matches somewhere in the string (anchored
forms `^…`/`…$` restrict the match to a prefix/suffix, as in the host). -/
def regexTest (re : CompiledPattern) (s : String) : Bool :=
  let ci := re.flags.toList.contains 'i'
  let src1 := re.source.toList
  let startAnchor := decide (src1.head? = some '^')
  let src2 := if startAnchor then src1.tail else src1
  let endAnchor := decide (src2.getLast? = some '$')
  let src3 := if endAnchor then src2.dropLast else src2
  let pieces := parsePieces src3
  let chars := s.toList
  let fuel := pieces.length + chars.length + 1
  if startAnchor then canMatch ci fuel endAnchor pieces chars
  else (List.range (chars.length + 1)).any (fun k => canMatch ci fuel endAnchor pieces (chars.drop k))

/-- Modelled from the spec (§3): the non-recursive fields of a schema node.
`dflt` carries the node's `default` field; `none` everywhere means the
field is absent. -/
structure ScalarFields where
  type : Option SchemaType := none
  const : Option Value := none
  enum : Option (List Value) := none
  minimum : Option Rat := none
  maximum : Option Rat := none
  exclusiveMinimum : Option Rat := none
  exclusiveMaximum : Option Rat := none
  multipleOf : Option Rat := none
  minLength : Option Nat := none
  maxLength : Option Nat := none
  pattern : Option String := none
  patternFlags : Option String := none
  required : Option (List String) := none
  dflt : Option Value := none

mutual

/-- Modelled from the spec (§3): a schema node — the scalar fields plus
`contains`, the combinators `allOf`/`anyOf`/`oneOf`/`not` (this engine
treats `not` as a list of child schemas, none of which may match),
`properties` and `additionalProperties`, in that argument order. -/
inductive Schema where
  | mk : ScalarFields → Option Schema → Option SchemaList → Option SchemaList →
      Option SchemaList → Option SchemaList → Option PropList → Option APValue → Schema

/-- An ordered list of child schema nodes (a dedicated type so that the
mutual recursion stays structural). -/
inductive SchemaList where
  | nil : SchemaList
  | cons : Schema → SchemaList → SchemaList

/-- An ordered mapping of property name to schema node. -/
inductive PropList where
  | nil : PropList
  | cons : String → Schema → PropList → PropList

/-- Modelled from the spec (§3): the `additionalProperties` field is `false`
(reject/strip unknown own properties), `true` (accept them unchanged), or a
schema node. -/
inductive APValue where
  | apFalse : APValue
  | apTrue : APValue
  | apSchema : Schema → APValue

end

mutual

/-- Size of a schema node: every child schema node has strictly smaller
size, so `size + 1` fuel runs the fueled evaluators to completion. -/
def Schema.size : Schema → Nat
  | .mk _ c a1 a2 a3 a4 p ap =>
    1 + (match c with | none => 0 | some s => Schema.size s)
      + (match a1 with | none => 0 | some l => SchemaList.size l)
      + (match a2 with | none => 0 | some l => SchemaList.size l)
      + (match a3 with | none => 0 | some l => SchemaList.size l)
      + (match a4 with | none => 0 | some l => SchemaList.size l)
      + (match p with | none => 0 | some l => PropList.size l)
      + (match ap with | none => 0 | some a => APValue.size a)

/-- Combined size of a list of child schema nodes. -/
def SchemaList.size : SchemaList → Nat
  | .nil => 0
  | .cons s l => Schema.size s + SchemaList.size l

/-- Combined size of a property mapping's schema nodes. -/
def PropList.size : PropList → Nat
  | .nil => 0
  | .cons _ s l => Schema.size s + PropList.size l

/-- Size of an `additionalProperties` field value. -/
def APValue.size : APValue → Nat
  | .apFalse => 1
  | .apTrue => 1
  | .apSchema s => 1 + Schema.size s

end

/-- The child schema nodes as an ordinary list. -/
def SchemaList.toList : SchemaList → List Schema
  | .nil => []
  | .cons s l => s :: SchemaList.toList l

/-- The property mapping as an ordinary association list. -/
def PropList.toList : PropList → List (String × Schema)
  | .nil => []
  | .cons k s l => (k, s) :: PropList.toList l

/-- Build a `SchemaList` from an ordinary list. -/
def schemaListOfList : List Schema → SchemaList
  | [] => .nil
  | s :: rest => .cons s (schemaListOfList rest)

/-- Build a `PropList` from an ordinary association list. -/
def propListOfList : List (String × Schema) → PropList
  | [] => .nil
  | (k, s) :: rest => .cons k s (propListOfList rest)

def Schema.scalar : Schema → ScalarFields
  | .mk f _ _ _ _ _ _ _ => f

def Schema.contains : Schema → Option Schema
  | .mk _ c _ _ _ _ _ _ => c

def Schema.allOf : Schema → Option SchemaList
  | .mk _ _ a _ _ _ _ _ => a

def Schema.anyOf : Schema → Option SchemaList
  | .mk _ _ _ a _ _ _ _ => a

def Schema.oneOf : Schema → Option SchemaList
  | .mk _ _ _ _ a _ _ _ => a

def Schema.nots : Schema → Option SchemaList
  | .mk _ _ _ _ _ a _ _ => a

def Schema.properties : Schema → Option PropList
  | .mk _ _ _ _ _ _ p _ => p

def Schema.additionalProperties : Schema → Option APValue
  | .mk _ _ _ _ _ _ _ ap => ap

/-- The node's `type` field. -/
def Schema.type (s : Schema) : Option SchemaType := s.scalar.type

/-- The node's `default` field. -/
def Schema.dflt (s : Schema) : Option Value := s.scalar.dflt

/-- A schema node with only scalar fields. -/
def Schema.ofScalar (f : ScalarFields) : Schema :=
  Schema.mk f none none none none none none none

/-- The declared property association list of a node (empty when the
`properties` field is absent). -/
def Schema.propList (s : Schema) : List (String × Schema) :=
  match s.properties with
  | none => []
  | some p => PropList.toList p

/-- Modelled from the spec (§4.2 step 1): fail when `type` is present and the
value's kind does not match it; the `undefined` marker has no kind and so
never passes a present type gate. -/
def typeGateOk (t : Option SchemaType) (v : Value) : Bool :=
  match t with
  | none => true
  | some ty =>
    match classify v with
    | none => false
    | some k => kindMatches ty k

/-- Modelled from the spec (§4.2 step 2): `const` requires identity equality
with the literal; otherwise `enum` requires identity equality with some
listed candidate. -/
def constEnumOk (f : ScalarFields) (v : Value) : Bool :=
  match f.const with
  | some c => identityEquals v c
  | none =>
    match f.enum with
    | some es => es.any (fun e => identityEquals v e)
    | none => true

/-- Modelled from the spec (§3, §4.2 step 3): the numeric constraint family,
evaluated only for number-kind values (constraints outside the active
family are ignored). -/
def numericOk (f : ScalarFields) (v : Value) : Bool :=
  match v with
  | .number q =>
    (match f.minimum with | none => true | some m => ratLeB m q) &&
    (match f.maximum with | none => true | some m => ratLeB q m) &&
    (match f.exclusiveMinimum with | none => true | some m => ratLtB m q) &&
    (match f.exclusiveMaximum with | none => true | some m => ratLtB q m) &&
    (match f.multipleOf with | none => true | some d => multipleOfCheck q d)
  | _ => true

/-- Modelled from the spec (§3, §4.2 step 3, §7): the string constraint
family, evaluated only for string values; a pattern that fails to compile
makes the pattern constraint not satisfied, it never raises. -/
def stringOk (f : ScalarFields) (v : Value) : Bool :=
  match v with
  | .str t =>
    (match f.minLength with | none => true | some m => decide (m ≤ t.length)) &&
    (match f.maxLength with | none => true | some m => decide (t.length ≤ m)) &&
    (match f.pattern with
     | none => true
     | some source =>
       match compilePattern source (f.patternFlags.getD "") with
       | none => false
       | some re => regexTest re t)
  | _ => true

/-- Modelled from the spec (§4.2): the recursive evaluator behind `isValid`,
with the recursion-depth cap of §5 that fails closed.  The fuel only
bounds schema recursion depth; `Schema.size s + 1` fuel always suffices
since every recursive call is on a strictly smaller schema. -/
def isValidFuel : Nat → Value → Schema → Bool
  | 0, _, _ => false
  | d+1, v, s =>
    typeGateOk s.scalar.type v &&
    constEnumOk s.scalar v &&
    numericOk s.scalar v &&
    stringOk s.scalar v &&
    (match s.allOf with
     | none => true
     | some cs => cs.toList.all (fun c => isValidFuel d v c)) &&
    (match s.anyOf with
     | none => true
     | some cs => cs.toList.any (fun c => isValidFuel d v c)) &&
    (match s.oneOf with
     | none => true
     | some cs => cs.toList.countP (fun c => isValidFuel d v c) == 1) &&
    (match s.nots with
     | none => true
     | some cs => cs.toList.all (fun c => !(isValidFuel d v c))) &&
    (match s.scalar.type with
     | some .array =>
       match s.contains with
       | none => true
       | some cSchema =>
         match v with
         | .arr _ items => items.any (fun it => isValidFuel d it cSchema)
         | _ => true
     | _ => true) &&
    (match s.scalar.type with
     | some .object =>
       match v with
       | .obj _ own _ =>
         (match s.scalar.required with
          | none => true
          | some req => req.all (fun name => own.any (fun q => q.fst == name))) &&
         own.all (fun q =>
           match List.lookup q.fst s.propList with
           | some ps => isValidFuel d q.snd ps
           | none =>
             match s.additionalProperties with
             | none => true
             | some .apTrue => true
             | some .apFalse => false
             | some (.apSchema ap) => isValidFuel d q.snd ap)
       | _ => true
     | _ => true)

/-- Modelled from the spec (§4.2, §6): the public validity predicate — a
total boolean function, never an error. -/
def isValid (v : Value) (s : Schema) : Bool := isValidFuel (Schema.size s + 1) v s

/-- Modelled from the spec (§4.3): the default-resolution engine, as the
spec's three-state scalar rule (`KEEP` / `SUBSTITUTE` / `PASSTHROUGH`)
plus the object-specific recursion, pinned to the reference test matrix
where the spec is silent:

* a value that does not fit an `object`-typed node's gate is replaced by
  the node's default when that default is a map, and by a fresh empty map
  otherwise (the test matrix maps the inputs `undefined`, `null`, `0`,
  `''` and `[]` of an object-typed schema to the populated default
  object, never back to the caller's value);
* a map-kind value is then populated: each declared property is resolved
  by an own-property check (inherited entries are treated as absent) and
  recursively defaulted, with the property omitted when the recursion
  yields the `undefined` marker; each remaining own property is dropped,
  kept, or recursively defaulted according to `additionalProperties`
  (an absent field behaves like `true`);
* every other value gets the scalar rule: keep it when it validates,
  substitute the default when the default validates, otherwise pass the
  value through unchanged — defaulting never raises.

A populated map is a fresh instance (identifier `0`, no inherited
entries); arrays are not deep-defaulted.  The fuel only caps schema
recursion depth and `Schema.size s + 1` always suffices. -/
def getValidValueOrDefaultFuel : Nat → Schema → Value → Value
  | 0, _, value => value
  | d+1, s, value =>
    let base :=
      match s.scalar.type with
      | some .object =>
        (match value with
         | .obj _ _ _ => value
         | _ =>
           match s.scalar.dflt with
           | some (Value.obj i own proto) => Value.obj i own proto
           | _ => Value.obj 0 [] [])
      | _ => value
    match base with
    | .obj _ own _ =>
      let declared := s.propList.filterMap (fun p =>
        match getValidValueOrDefaultFuel d p.snd ((List.lookup p.fst own).getD Value.undef) with
        | .undef => none
        | r => some (p.fst, r))
      let extra := (own.filter (fun q => !(s.propList.any (fun p2 => p2.fst == q.fst)))).filterMap
        (fun q =>
          match s.additionalProperties with
          | some .apFalse => none
          | some .apTrue => some (q.fst, q.snd)
          | none => some (q.fst, q.snd)
          | some (.apSchema ap) =>
            match getValidValueOrDefaultFuel d ap q.snd with
            | .undef => none
            | r => some (q.fst, r))
      Value.obj 0 (declared ++ extra) []
    | _ =>
      if isValid base s then base
      else
        match s.scalar.dflt with
        | some dv => if isValid dv s then dv else base
        | none => base

/-- Modelled from the spec (§4.3, §6): the public defaulting operation — a
total function returning a new value, never an error. -/
def getValidValueOrDefault (s : Schema) (v : Value) : Value :=
  getValidValueOrDefaultFuel (Schema.size s + 1) s v

/-- The own entries of a map value (empty for any other value). -/
def objEntries : Value → List (String × Value)
  | .obj _ own _ => own
  | _ => []

/-- Modelled from the spec (§4.3): whether a value's kind fits a node's type
gate for the purposes of default resolution; the `undefined` marker never
fits. -/
def valueTypeFits (v : Value) (t : Option SchemaType) : Bool :=
  match classify v with
  | none => false
  | some k =>
    match t with
    | none => true
    | some ty => kindMatches ty k

/-- The combinator schema of the reference test `testValidate1`: `allOf` of a
number type gate, an `anyOf` range union, a `oneOf` of multiple-of-3 /
multiple-of-5, and a `not` of multiple-of-20. -/
def schemaC1 : Schema :=
  Schema.mk {} none
    (some (schemaListOfList
      [ Schema.ofScalar { type := some .number },
        Schema.mk {} none none
          (some (schemaListOfList
            [ Schema.ofScalar { minimum := some 10, maximum := some 100 },
              Schema.ofScalar { minimum := some (-100), maximum := some (-10) } ]))
          none none none none,
        Schema.mk {} none none none
          (some (schemaListOfList
            [ Schema.ofScalar { multipleOf := some 3 },
              Schema.ofScalar { multipleOf := some 5 } ]))
          none none none,
        Schema.mk {} none none none none
          (some (schemaListOfList [ Schema.ofScalar { multipleOf := some 20 } ]))
          none none ]))
    none none none none none

/-- The direct boolean formula of the reference test `testValidate1`, at
integer inputs: range membership AND (multiple of 3 or of 5, but not of
15) AND not a multiple of 20. -/
def jsValidate (n : Int) : Bool :=
  ((decide (10 ≤ n) && decide (n ≤ 100)) || (decide (-100 ≤ n) && decide (n ≤ -10))) &&
  (((n % 3 == 0) || (n % 5 == 0)) && !(n % 15 == 0)) &&
  !(n % 20 == 0)

/-- One probe of the `testValidate1` comparison, as a boolean. -/
def checkC1 (n : Int) : Bool := isValid (Value.number (n : Rat)) schemaC1 == jsValidate n

/-- The string-with-default property schema used throughout the defaulting
tests: `{type: string, default: 'default'}`. -/
def tsDefault : Schema := Schema.ofScalar { type := some .string, dflt := some (Value.str "default") }

/-- The object schema of the `additionalProperties: false` defaulting tests:
`{type: object, required: ['test'], properties: {test: {type: string,
default: 'default'}}, additionalProperties: false}`. -/
def schemaA : Schema :=
  Schema.mk { type := some .object, required := some ["test"] } none none none none none
    (some (propListOfList [("test", tsDefault)])) (some .apFalse)

/-- The property schema `{type: integer, default: 2, minimum: 1}` (its
default is valid for the node). -/
def tsGood : Schema := Schema.ofScalar { type := some .integer, dflt := some (Value.number 2), minimum := some 1 }

/-- The property schema `{type: integer, default: 1, minimum: 2}` (its
default is itself invalid for the node). -/
def tsBad : Schema := Schema.ofScalar { type := some .integer, dflt := some (Value.number 1), minimum := some 2 }

/-- The object schema wrapping `tsGood` under the property name `test`. -/
def schemaG : Schema :=
  Schema.mk { type := some .object, required := some ["test"] } none none none none none
    (some (propListOfList [("test", tsGood)])) none

/-- The object schema wrapping `tsBad` under the property name `test`. -/
def schemaH : Schema :=
  Schema.mk { type := some .object, required := some ["test"] } none none none none none
    (some (propListOfList [("test", tsBad)])) none

/-- A schema node carrying only a `const` literal. -/
def constSchema (c : Value) : Schema := Schema.ofScalar { const := some c }

/-- A schema node carrying only an `enum` list. -/
def enumSchema (es : List Value) : Schema := Schema.ofScalar { enum := some es }

/-- The object schema of the own-property defaulting tests (no
`additionalProperties` field): `{type: object, required: ['test'],
properties: {test: {type: string, default: 'default'}}}`. -/
def schemaD : Schema :=
  Schema.mk { type := some .object, required := some ["test"] } none none none none none
    (some (propListOfList [("test", tsDefault)])) none

/-- The variant of `schemaD` whose declared property name is `toString`,
colliding with a built-in prototype member. -/
def schemaE : Schema :=
  Schema.mk { type := some .object, required := some ["toString"] } none none none none none
    (some (propListOfList [("toString", tsDefault)])) none

/-- A nested object schema whose property `a` is a number defaulting to 5
and is not required. -/
def innerSchema : Schema :=
  Schema.mk { type := some .object } none none none none none
    (some (propListOfList [("a", Schema.ofScalar { type := some .number, dflt := some (Value.number 5) })])) none

/-- An object schema with `additionalProperties: false` whose declared
property `test` carries the nested `innerSchema`. -/
def schemaNested : Schema :=
  Schema.mk { type := some .object } none none none none none
    (some (propListOfList [("test", innerSchema)])) (some .apFalse)

/-- A string schema with the given pattern source and flags. -/
def patternSchema (source flags : String) : Schema :=
  Schema.ofScalar { type := some .string, pattern := some source, patternFlags := some flags }

/-- The schema `{type: integer, multipleOf: 2}` of the multiple-of tests. -/
def mult2Schema : Schema := Schema.ofScalar { type := some .integer, multipleOf := some 2 }

/-- The bare schema `{type: 'number'}`. -/
def numberSchema : Schema := Schema.ofScalar { type := some .number }

/-- The bare schema `{type: 'integer'}`. -/
def integerSchema : Schema := Schema.ofScalar { type := some .integer }

/-- The bare schema `{type: 'string'}`. -/
def stringSchema : Schema := Schema.ofScalar { type := some .string }

/-- The non-integer number one half. -/
def half : Rat := mkRat 1 2

set_option maxRecDepth 8000 in
/-- Helper for C1: the reference comparison holds over the whole sampled
integer range, shifted into `List.range`. -/
theorem checkC1_range : (List.range 223).all (fun m => checkC1 ((m : Int) - 111)) = true := by decide

/-- C1: for every integer n with -111 <= n <= 111, `isValid` on the combined
allOf/anyOf/oneOf/not schema equals the direct boolean formula (with oneOf
demanding exactly one child, so multiples of 15 fail). -/
theorem oneOf_combinator_formula (n : Int) (h1 : -111 ≤ n) (h2 : n ≤ 111) :
    isValid (Value.number (n : Rat)) schemaC1 = jsValidate n := by
  have hm : n = ((n + 111).toNat : Int) - 111 := by omega
  have hmem : (n + 111).toNat ∈ List.range 223 := List.mem_range.mpr (by omega)
  have h3 := List.all_eq_true.mp checkC1_range _ hmem
  rw [checkC1] at h3
  rw [hm]
  exact eq_of_beq h3

/-- Witness for C1 at n = 30 (a multiple of both 3 and 5: oneOf sees two
valid children and the schema rejects it, as does the formula). -/
theorem oneOf_combinator_formula_witness :
    jsValidate 30 = false ∧ isValid (Value.number ((30 : Int) : Rat)) schemaC1 = jsValidate 30 :=
  ⟨by decide, oneOf_combinator_formula 30 (by decide) (by decide)⟩

/-- C3: when the input is invalid and the declared default is itself invalid,
the input is left unchanged (-1 stays -1 under {type: integer, default: 1,
minimum: 2}); when the default is valid, it replaces the invalid input
(-1 becomes 2 under {type: integer, default: 2, minimum: 1}); likewise at
the object level through a declared property. -/
theorem default_precedence :
    getValidValueOrDefault tsBad (Value.number (-1)) = Value.number (-1) ∧
    getValidValueOrDefault tsGood (Value.number (-1)) = Value.number 2 ∧
    getValidValueOrDefault schemaH (Value.obj 7 [("test", Value.number (-1))] []) =
      Value.obj 0 [("test", Value.number (-1))] [] ∧
    getValidValueOrDefault schemaG (Value.obj 7 [("test", Value.number (-1))] []) =
      Value.obj 0 [("test", Value.number 2)] [] :=
  ⟨rfl, rfl, rfl, rfl⟩

/-- C4: `const` and `enum` compare by instance identity, not structural
equality: any map or list input whose instance identifier differs from the
schema literal's is rejected even when structurally equal, while primitives
of matching kind and equal value (32 against const 32) match. -/
theorem const_identity (i j : Nat) (h : i ≠ j) (e1 e2 p1 p2 : List (String × Value))
    (l1 l2 : List Value) :
    isValid (Value.obj i e1 p1) (constSchema (Value.obj j e2 p2)) = false ∧
    isValid (Value.arr i l1) (constSchema (Value.arr j l2)) = false ∧
    isValid (Value.obj i e1 p1) (enumSchema [Value.obj j e2 p2]) = false ∧
    isValid (Value.number 32) (constSchema (Value.number 32)) = true := by
  have hb : (i == j) = false := beq_eq_false_iff_ne.mpr h
  refine ⟨?_, ?_, ?_, rfl⟩ <;>
    simp [isValid, isValidFuel, constSchema, enumSchema, Schema.ofScalar, Schema.scalar,
      typeGateOk, constEnumOk, identityEquals, numericOk, stringOk, Schema.allOf, Schema.anyOf,
      Schema.oneOf, Schema.nots, Schema.propList, Schema.properties, Schema.additionalProperties,
      Schema.contains, classify, kindMatches, hb]

/-- Witness for C4 at the claim's own literals: input {a: 'b'} (instance 1)
against const {a: 'b'} (instance 0), and [1,2,3] likewise. -/
theorem const_identity_witness :
    isValid (Value.obj 1 [("a", Value.str "b")] []) (constSchema (Value.obj 0 [("a", Value.str "b")] [])) = false ∧
    isValid (Value.arr 1 [Value.number 1, Value.number 2, Value.number 3])
      (constSchema (Value.arr 0 [Value.number 1, Value.number 2, Value.number 3])) = false ∧
    isValid (Value.obj 1 [("a", Value.str "b")] []) (enumSchema [Value.obj 0 [("a", Value.str "b")] []]) = false ∧
    isValid (Value.number 32) (constSchema (Value.number 32)) = true :=
  const_identity 1 0 (by decide) [("a", Value.str "b")] [("a", Value.str "b")] [] []
    [Value.number 1, Value.number 2, Value.number 3] [Value.number 1, Value.number 2, Value.number 3]

/-- C7: a string-typed node whose pattern fails to compile (malformed source
such as `*`, or malformed flags such as `?`) is not satisfied for any
string value, and `isValid` is a total function, so no error escapes. -/
theorem malformed_pattern_invalid (s : Schema) (sv source : String)
    (h1 : s.scalar.pattern = some source)
    (h3 : compilePattern source ((s.scalar.patternFlags).getD "") = none) :
    isValid (Value.str sv) s = false := by
  have hso : stringOk s.scalar (Value.str sv) = false := by
    simp [stringOk, h1, h3]
  simp only [isValid, isValidFuel]
  simp [hso]

/-- Witness for C7: the malformed source `*` (with empty flags) and the
malformed flag string `?` (with well-formed source `.`) both reject. -/
theorem malformed_pattern_invalid_witness :
    isValid (Value.str "") (patternSchema "*" "") = false ∧
    isValid (Value.str "") (patternSchema "." "?") = false :=
  ⟨malformed_pattern_invalid (patternSchema "*" "") "" "*" rfl rfl,
   malformed_pattern_invalid (patternSchema "." "?") "" "." rfl rfl⟩

/-- C8: `multipleOf` is satisfied exactly when the remainder is zero: under
{type: integer, multipleOf: 2}, -2, 0 and 2 are accepted while -1 and 1
are rejected, and 0 is a multiple of every non-zero divisor. -/
theorem multiple_of_remainder (d : Rat) (hd : d ≠ 0) :
    multipleOfCheck 0 d = true ∧
    isValid (Value.number (-2)) mult2Schema = true ∧
    isValid (Value.number 0) mult2Schema = true ∧
    isValid (Value.number 2) mult2Schema = true ∧
    isValid (Value.number (-1)) mult2Schema = false ∧
    isValid (Value.number 1) mult2Schema = false := by
  refine ⟨?_, rfl, rfl, rfl, rfl, rfl⟩
  have hnum : d.num ≠ 0 := Rat.num_ne_zero.mpr hd
  simp [multipleOfCheck, hnum]

/-- Witness for C8 at divisor 2. -/
theorem multiple_of_remainder_witness :
    multipleOfCheck 0 2 = true ∧
    isValid (Value.number (-2)) mult2Schema = true ∧
    isValid (Value.number 0) mult2Schema = true ∧
    isValid (Value.number 2) mult2Schema = true ∧
    isValid (Value.number (-1)) mult2Schema = false ∧
    isValid (Value.number 1) mult2Schema = false :=
  multiple_of_remainder 2 (by norm_num)

/-- C9: the number/integer type gate is asymmetric: every integer-classified
value passes a number-typed schema, every value not classified integer
fails an integer-typed schema, and in particular one half passes
{type: number} but fails {type: integer}. -/
theorem number_integer_gate (v w : Value) (hv : classify v = some Kind.integer)
    (hw : classify w ≠ some Kind.integer) :
    isValid v numberSchema = true ∧ isValid w integerSchema = false ∧
    isValid (Value.number half) numberSchema = true ∧
    isValid (Value.number half) integerSchema = false := by
  refine ⟨?_, ?_, rfl, rfl⟩
  · cases v <;> simp [classify] at hv <;>
      simp [isValid, isValidFuel, numberSchema, Schema.ofScalar, Schema.scalar, typeGateOk,
        classify, kindMatches, constEnumOk, numericOk, stringOk, Schema.allOf, Schema.anyOf,
        Schema.oneOf, Schema.nots, Schema.contains, hv]
  · cases w <;>
      simp [isValid, isValidFuel, integerSchema, Schema.ofScalar, Schema.scalar, typeGateOk,
        classify, kindMatches, constEnumOk, numericOk, stringOk, Schema.allOf, Schema.anyOf,
        Schema.oneOf, Schema.nots, Schema.contains] <;>
      simp [classify] at hw <;> simp [hw]

/-- Witness for C9 at the integer 3 and the non-integer string '0'. -/
theorem number_integer_gate_witness :
    isValid (Value.number 3) numberSchema = true ∧
    isValid (Value.str "0") integerSchema = false ∧
    isValid (Value.number half) numberSchema = true ∧
    isValid (Value.number half) integerSchema = false :=
  number_integer_gate (Value.number 3) (Value.str "0") (by decide) (by decide)

/-- C10: the undefined marker is accepted as input without error and fails
every schema whose `type` field is present. -/
theorem undefined_fails_typed (s : Schema) (t : SchemaType) (h : s.type = some t) :
    isValid Value.undef s = false := by
  simp only [isValid, isValidFuel]
  rw [Schema.type] at h
  rw [h]
  simp [typeGateOk, classify]

/-- Witness for C10 at the schema {type: 'string'}. -/
theorem undefined_fails_typed_witness : isValid Value.undef stringSchema = false :=
  undefined_fails_typed stringSchema SchemaType.string rfl

/-- Helper: a present `object` type gate only passes values classified as
maps. -/
theorem classify_object_of_gate (w : Value) (hA : typeGateOk (some SchemaType.object) w = true) :
    classify w = some Kind.object := by
  rcases hcv : classify w with _ | k
  · rw [typeGateOk, hcv] at hA
    simp at hA
  · rw [typeGateOk, hcv] at hA
    cases k <;> simp_all [kindMatches]

/-- Helper: on a node whose type gate is not `object` and a value that is
not a map, default resolution is exactly the scalar three-state rule. -/
theorem gvvodFuel_scalar_rule (d : Nat) (s : Schema) (v : Value)
    (hty : s.scalar.type ≠ some SchemaType.object)
    (hv : classify v ≠ some Kind.object) :
    getValidValueOrDefaultFuel (d+1) s v =
      (if isValid v s then v
       else
         match s.scalar.dflt with
         | some dv => if isValid dv s then dv else v
         | none => v) := by
  simp only [getValidValueOrDefaultFuel]
  rcases ht : s.scalar.type with _ | ty
  · cases v <;> first | exact absurd rfl hv | rfl
  · cases ty
    case object => exact absurd ht hty
    all_goals cases v <;> first | exact absurd rfl hv | rfl

/-- C2 amended: when the value's kind fits the node's type gate, the value is
not a map, it fails `isValid`, and the default is absent or itself
invalid, `getValidValueOrDefault` returns the value unchanged. -/
theorem passthrough_amended (s : Schema) (v : Value)
    (hfit : valueTypeFits v s.type = true)
    (hobj : classify v ≠ some Kind.object)
    (hinv : isValid v s = false)
    (hdef : ∀ dv, s.dflt = some dv → isValid dv s = false) :
    getValidValueOrDefault s v = v := by
  have hobject : s.scalar.type ≠ some SchemaType.object := by
    intro ht
    simp only [Schema.type, valueTypeFits, ht] at hfit
    rcases hcv : classify v with _ | k
    · rw [hcv] at hfit
      simp at hfit
    · rw [hcv] at hfit
      cases k <;> simp_all [kindMatches]
  rw [getValidValueOrDefault, gvvodFuel_scalar_rule (Schema.size s) s v hobject hobj, hinv]
  rcases hd : s.scalar.dflt with _ | dv
  · simp
  · have h5 := hdef dv (by rw [Schema.dflt]; exact hd)
    simp [h5]

/-- Witness for C2 amended: -1 fails {type: integer, default: 1, minimum: 2}
whose default is itself invalid, and passes through unchanged. -/
theorem passthrough_amended_witness :
    getValidValueOrDefault tsBad (Value.number (-1)) = Value.number (-1) :=
  passthrough_amended tsBad (Value.number (-1)) (by decide) (by decide) (by decide)
    (fun dv hdv => by
      rw [show tsBad.dflt = some (Value.number 1) from rfl] at hdv
      injection hdv with h5
      rw [← h5]
      decide)

/-- Counterexample for C2 as stated: the number 0 fails the object-typed
schema, the schema has no top-level default, and yet the result is the
populated default object, not the original value. -/
theorem passthrough_counterexample :
    isValid (Value.number 0) schemaA = false ∧
    schemaA.dflt = none ∧
    getValidValueOrDefault schemaA (Value.number 0) = Value.obj 0 [("test", Value.str "default")] [] ∧
    getValidValueOrDefault schemaA (Value.number 0) ≠ Value.number 0 := by
  refine ⟨rfl, rfl, rfl, fun hcontra => ?_⟩
  have h0 : Value.obj 0 [("test", Value.str "default")] [] = Value.number 0 := by
    calc Value.obj 0 [("test", Value.str "default")] []
        = getValidValueOrDefault schemaA (Value.number 0) := rfl
      _ = Value.number 0 := hcontra
  exact Value.noConfusion h0

/-- C5: a property that resolves only through the prototype chain (not an own
key) is treated as absent by defaulting and its declared default is
substituted, including for the name `toString`. -/
theorem own_property_defaulting (i1 i2 : Nat) (own1 own2 proto1 proto2 : List (String × Value))
    (w1 w2 : Value)
    (h1 : List.lookup "test" own1 = none) (h2 : List.lookup "test" proto1 = some w1)
    (h3 : List.lookup "toString" own2 = none) (h4 : List.lookup "toString" proto2 = some w2) :
    List.lookup "test" (objEntries (getValidValueOrDefault schemaD (Value.obj i1 own1 proto1))) =
      some (Value.str "default") ∧
    List.lookup "toString" (objEntries (getValidValueOrDefault schemaE (Value.obj i2 own2 proto2))) =
      some (Value.str "default") := by
  constructor
  · simp only [getValidValueOrDefault, getValidValueOrDefaultFuel]
    simp only [schemaD, tsDefault, Schema.scalar, Schema.propList, Schema.properties,
      Schema.additionalProperties, Schema.ofScalar, PropList.toList, propListOfList,
      List.filterMap_cons, List.filterMap_nil, h1, Option.getD]
    simp +decide [objEntries, List.lookup]
  · simp only [getValidValueOrDefault, getValidValueOrDefaultFuel]
    simp only [schemaE, tsDefault, Schema.scalar, Schema.propList, Schema.properties,
      Schema.additionalProperties, Schema.ofScalar, PropList.toList, propListOfList,
      List.filterMap_cons, List.filterMap_nil, h3, Option.getD]
    simp +decide [objEntries, List.lookup]

/-- Witness for C5: maps whose only `test`/`toString` entries are inherited
get the default substituted. -/
theorem own_property_defaulting_witness :
    List.lookup "test" (objEntries (getValidValueOrDefault schemaD
      (Value.obj 3 [] [("test", Value.str "value")]))) = some (Value.str "default") ∧
    List.lookup "toString" (objEntries (getValidValueOrDefault schemaE
      (Value.obj 3 [] [("toString", Value.str "value")]))) = some (Value.str "default") :=
  own_property_defaulting 3 3 [] [] [("test", Value.str "value")] [("toString", Value.str "value")]
    (Value.str "value") (Value.str "value") rfl rfl rfl rfl

/-- Helper: a filterMap of a constantly-`none` function yields the empty
list. -/
theorem filterMap_none_eq_nil {α β : Type} (l : List α) :
    List.filterMap (fun _ => (none : Option β)) l = [] := by
  induction l with
  | nil => rfl
  | cons a rest ih => rw [List.filterMap_cons]; exact ih

/-- Helper: a filterMap whose function preserves its input's key produces no
entry for a key outside the input's keys. -/
theorem lookup_filterMap_none {β : Type} (k : String) (l : List (String × β))
    (g : String × β → Option (String × Value))
    (hg : ∀ p r, g p = some r → r.fst = p.fst)
    (hk : k ∉ l.map Prod.fst) :
    List.lookup k (List.filterMap g l) = none := by
  induction l with
  | nil => rfl
  | cons p rest ih =>
    rw [List.map_cons] at hk
    have hk1 : k ≠ p.fst := fun hkp => hk (by rw [hkp]; exact List.mem_cons_self _ _)
    have hk2 : k ∉ rest.map Prod.fst := fun hm => hk (List.mem_cons_of_mem _ hm)
    rw [List.filterMap_cons]
    cases hgp : g p with
    | none => exact ih hk2
    | some r =>
      obtain ⟨r1, r2⟩ := r
      have hr1 : r1 = p.fst := hg p (r1, r2) hgp
      have hne : (k == r1) = false := beq_eq_false_iff_ne.mpr (by rw [hr1]; exact hk1)
      rw [List.lookup, hne]
      exact ih hk2

/-- C6 amended: with `additionalProperties: false`, every own key of the
input outside the declared properties is absent from the defaulted output
(first conjunct, for every schema and input); values of declared
properties that validate and are not maps are kept unchanged (second
conjunct); and on the reference input the result is {test: 'value'}
(third conjunct). -/
theorem additional_properties_false_drop (s : Schema) (pl : PropList) (i : Nat)
    (own proto : List (String × Value)) (k : String)
    (hty : s.scalar.type = some SchemaType.object)
    (hp : s.properties = some pl)
    (hap : s.additionalProperties = some APValue.apFalse)
    (hk : k ∉ (PropList.toList pl).map Prod.fst) :
    List.lookup k (objEntries (getValidValueOrDefault s (Value.obj i own proto))) = none ∧
    (∀ ps w, classify w ≠ some Kind.object → isValid w ps = true →
      getValidValueOrDefault ps w = w) ∧
    getValidValueOrDefault schemaA
        (Value.obj i [("test", Value.str "value"), ("test2", Value.str "value2")] proto) =
      Value.obj 0 [("test", Value.str "value")] [] := by
  refine ⟨?_, ?_, rfl⟩
  · simp only [getValidValueOrDefault, getValidValueOrDefaultFuel]
    simp only [hty, hap, Schema.propList, hp, objEntries]
    rw [filterMap_none_eq_nil, List.append_nil]
    apply lookup_filterMap_none
    · intro p r hr
      cases hX : getValidValueOrDefaultFuel (Schema.size s) p.2
          ((List.lookup p.1 own).getD Value.undef) <;> rw [hX] at hr
      case undef => exact Option.noConfusion hr
      all_goals (injection hr with h5; rw [← h5])
    · exact hk
  · intro ps w hw hval
    have hA : typeGateOk ps.scalar.type w = true := by
      simp only [isValid, isValidFuel, Bool.and_eq_true] at hval
      exact hval.1.1.1.1.1.1.1.1.1
    have hty2 : ps.scalar.type ≠ some SchemaType.object := by
      intro ht2
      rw [ht2] at hA
      exact hw (classify_object_of_gate w hA)
    simp only [getValidValueOrDefault]
    rw [gvvodFuel_scalar_rule (Schema.size ps) ps w hty2 hw]
    simp [hval]

/-- Witness for C6 amended at the reference schema and an input holding only
the unknown key test2. -/
theorem additional_properties_false_drop_witness :
    List.lookup "test2" (objEntries (getValidValueOrDefault schemaA
      (Value.obj 7 [("test2", Value.str "value2")] []))) = none ∧
    (∀ ps w, classify w ≠ some Kind.object → isValid w ps = true →
      getValidValueOrDefault ps w = w) ∧
    getValidValueOrDefault schemaA
        (Value.obj 7 [("test", Value.str "value"), ("test2", Value.str "value2")] []) =
      Value.obj 0 [("test", Value.str "value")] [] :=
  additional_properties_false_drop schemaA (propListOfList [("test", tsDefault)]) 7
    [("test2", Value.str "value2")] [] "test2" rfl rfl rfl (by decide)

/-- Counterexample for C6 as stated: the empty map validates against the
nested property schema, yet defaulting does not keep it unchanged — the
returned property value has gained the defaulted sub-property a = 5. -/
theorem kept_unchanged_counterexample :
    isValid (Value.obj 2 [] []) innerSchema = true ∧
    getValidValueOrDefault schemaNested (Value.obj 1 [("test", Value.obj 2 [] [])] []) =
      Value.obj 0 [("test", Value.obj 0 [("a", Value.number 5)] [])] [] ∧
    List.lookup "a" (objEntries (Value.obj 2 [] [])) = none ∧
    List.lookup "a" (objEntries (Value.obj 0 [("a", Value.number 5)] [])) = some (Value.number 5) :=
  ⟨rfl, rfl, rfl, rfl⟩

end JsonSchema
